import Mathlib

/-!
Shallow embedding of the Rust crate `libtailscale` (module `src/tailscale.rs`),
a safe wrapper around the native Tailscale C API.  The native surface
(`tailscale_new`, `tailscale_set_*`, `tailscale_up`, `tailscale_listen`,
`tailscale_dial`, `tailscale_accept`, `tailscale_getremoteaddr`,
`tailscale_getips`, `tailscale_errmsg`, `tailscale_close`) is modelled as an
environment supplying each call's return code and the text it writes into the
caller-supplied buffer; the Rust control flow around those calls is translated
function by function.  Strings crossing the FFI boundary are modelled at the
text level (a NUL-terminated, valid-UTF-8 buffer is a `String`).
-/

/-- Parsed IPv4 address: the four octets of `std::net::Ipv4Addr`. -/
structure Ipv4 where
  o1 : Nat
  o2 : Nat
  o3 : Nat
  o4 : Nat
deriving DecidableEq, Repr

/-- Value of a character as a digit in the given radix, as Rust's
`char::to_digit` (decimal digits, then lowercase/uppercase letters). -/
def digitVal (radix : Nat) (c : Char) : Option Nat :=
  let v :=
    if '0' ≤ c ∧ c ≤ '9' then some (c.toNat - '0'.toNat)
    else if 'a' ≤ c ∧ c ≤ 'z' then some (c.toNat - 'a'.toNat + 10)
    else if 'A' ≤ c ∧ c ≤ 'Z' then some (c.toNat - 'A'.toNat + 10)
    else none
  match v with
  | some d => if d < radix then some d else none
  | none => none

/-- Digit-accumulation loop of Rust's `Parser::read_number`: repeatedly read a
digit in `radix`, with checked arithmetic against the integer type's maximum
`maxVal` and an optional cap `maxDigits` on the number of digits.  Returns the
accumulated value, digit count, and remaining input; `none` models the checked
overflow / too-many-digits abort of the whole read. -/
def readNumLoop (radix maxVal : Nat) (maxDigits : Option Nat) :
    Nat → Nat → List Char → Option (Nat × Nat × List Char)
  | result, count, [] => some (result, count, [])
  | result, count, c :: cs =>
    match digitVal radix c with
    | none => some (result, count, c :: cs)
    | some d =>
      let r := result * radix + d
      if maxVal < r then none
      else
        match maxDigits with
        | some m =>
          if m < count + 1 then none
          else readNumLoop radix maxVal maxDigits r (count + 1) cs
        | none => readNumLoop radix maxVal maxDigits r (count + 1) cs

/-- Rust's `Parser::read_number(radix, max_digits, allow_zero_prefix)`
specialised to an unsigned integer type with maximum value `maxVal`.
Fails on zero digits, on a disallowed leading zero, on overflow, and on
exceeding `maxDigits`. -/
def readNumber (radix maxVal : Nat) (maxDigits : Option Nat)
    (allowZeroPfx : Bool) (cs : List Char) : Option (Nat × List Char) :=
  let hasLeadingZero := match cs with
    | '0' :: _ => true
    | _ => false
  match readNumLoop radix maxVal maxDigits 0 0 cs with
  | none => none
  | some (r, count, rest) =>
    if count = 0 then none
    else if !allowZeroPfx && hasLeadingZero && decide (count > 1) then none
    else some (r, rest)

/-- Rust's `Parser::read_given_char`: consume exactly the character `c`. -/
def readGivenChar (c : Char) : List Char → Option (List Char)
  | [] => none
  | x :: xs => if x = c then some xs else none

/-- Rust's `Parser::read_ipv4_addr`: four decimal octets (each at most three
digits, no leading zeros, value ≤ 255) separated by dots. -/
def readIpv4 (cs : List Char) : Option (Ipv4 × List Char) := do
  let (a, cs) ← readNumber 10 255 (some 3) false cs
  let cs ← readGivenChar '.' cs
  let (b, cs) ← readNumber 10 255 (some 3) false cs
  let cs ← readGivenChar '.' cs
  let (c, cs) ← readNumber 10 255 (some 3) false cs
  let cs ← readGivenChar '.' cs
  let (d, cs) ← readNumber 10 255 (some 3) false cs
  pure (⟨a, b, c, d⟩, cs)

/-- Rust's `Ipv4Addr::from_str`: `read_ipv4_addr` followed by end of input. -/
def parseIpv4 (s : String) : Option Ipv4 :=
  match readIpv4 s.toList with
  | some (ip, []) => some ip
  | _ => none

/-- Rust's `read_groups` helper of `Parser::read_ipv6_addr`, with the number
of remaining group slots as fuel and a flag marking the first slot (which is
not preceded by a `:` separator).  Returns the parsed 16-bit groups, the
remaining input, and whether the run ended in an embedded IPv4 address. -/
def readGroups : Nat → Bool → List Char → (List Nat × List Char × Bool)
  | 0, _, cs => ([], cs, false)
  | remaining + 1, first, cs =>
    let sepRead : List Char → Option (List Char) :=
      fun l => if first then some l else readGivenChar ':' l
    let v4Try : Option (Ipv4 × List Char) :=
      if remaining ≥ 1 then
        match sepRead cs with
        | some l => readIpv4 l
        | none => none
      else none
    match v4Try with
    | some (ip, rest) =>
      ([ip.o1 * 256 + ip.o2, ip.o3 * 256 + ip.o4], rest, true)
    | none =>
      let groupTry : Option (Nat × List Char) :=
        match sepRead cs with
        | some l => readNumber 16 65535 (some 4) true l
        | none => none
      match groupTry with
      | some (g, rest) =>
        let (gs, rest2, usedV4) := readGroups remaining false rest
        (g :: gs, rest2, usedV4)
      | none => ([], cs, false)

/-- Rust's `Parser::read_ipv6_addr`: up to eight 16-bit groups, an optional
`::` filling the gap with zero groups, and an optional trailing embedded IPv4
address occupying the last two groups.  Returns the eight groups. -/
def readIpv6 (cs : List Char) : Option (List Nat × List Char) :=
  let (head, rest, headV4) := readGroups 8 true cs
  if head.length = 8 then some (head, rest)
  else if headV4 then none
  else
    match readGivenChar ':' rest with
    | none => none
    | some rest1 =>
      match readGivenChar ':' rest1 with
      | none => none
      | some rest2 =>
        let limit := 8 - (head.length + 1)
        let (tail, rest3, _) := readGroups limit true rest2
        some (head ++ List.replicate (8 - head.length - tail.length) 0 ++ tail,
          rest3)

/-- Rust's `Ipv6Addr::from_str`: `read_ipv6_addr` followed by end of input.
The address is the list of its eight 16-bit groups. -/
def parseIpv6 (s : String) : Option (List Nat) :=
  match readIpv6 s.toList with
  | some (gs, []) => some gs
  | _ => none

/-- Rust's `IpAddr`: either a v4 or a v6 address. -/
inductive RsIpAddr where
  | V4 (ip : Ipv4)
  | V6 (groups : List Nat)
deriving DecidableEq, Repr

/-- Rust's `IpAddr::from_str`: try the IPv4 grammar, then the IPv6 grammar,
requiring in either case that the whole input is consumed. -/
def parseIpAddr (s : String) : Option RsIpAddr :=
  match parseIpv4 s with
  | some ip => some (.V4 ip)
  | none =>
    match parseIpv6 s with
    | some gs => some (.V6 gs)
    | none => none

/-- Error type `TailscaleError` of `src/tailscale.rs` (one constructor per
variant; payloads are the data the claims observe — for `AddrParseError` the
offending text, for the message-carrying variants the message strings). -/
inductive TailscaleError where
  | CreateTailscale
  | SpawnBlockingFailed
  | AddrParseError (s : String)
  | Utf8Error
  | NullError
  | Utf8ContentError
  | InvalidAddress
  | InvalidIpAdresses (s : String)
  | Recvmsg
  | ControlMessage
  | SetHostname
  | SetDir
  | SetAuthKey
  | SetEphemeral
  | SetLogFd
  | UpFailed (msg : String)
  | ListenFailed (network : String) (addr : String) (message : String)
  | DialFailed (network : String) (addr : String) (message : String)
  | AcceptFailed (msg : String)
  | Tailscale (msg : String)
deriving DecidableEq, Repr

/-- Whether `CString::new` on this string fails with `NulError`
(the string contains an interior NUL byte). -/
def hasNul (s : String) : Bool :=
  s.toList.any (fun c => c = Char.ofNat 0)

/-- Rust's `str::split_once` on a character pattern, over the char list. -/
def splitOnceList (c : Char) : List Char → Option (List Char × List Char)
  | [] => none
  | x :: xs =>
    if x = c then some ([], xs)
    else
      match splitOnceList c xs with
      | some (l, r) => some (x :: l, r)
      | none => none

/-- Rust's `str::split_once` on strings. -/
def splitOnce (s : String) (c : Char) : Option (String × String) :=
  match splitOnceList c s.toList with
  | some (l, r) => some (String.mk l, String.mk r)
  | none => none

/-- The `IpPair` struct: the IPv4 and IPv6 addresses assigned to a node. -/
structure IpPair where
  ipv4 : Ipv4
  ipv6 : List Nat
deriving DecidableEq, Repr

/-- The `LogConfig` enum.  An `OwnedFd` is modelled by its raw descriptor. -/
inductive LogConfig where
  | Default
  | Fd (fd : Int)
  | Discard
deriving DecidableEq, Repr

/-- The `TailscaleBuilder` struct (a `PathBuf` is modelled by its displayed
string form, which is what `build()` passes to the native call). -/
structure TailscaleBuilder where
  ephemeral : Bool
  hostname : Option String
  dir : Option String
  auth_key : Option String
  log_config : LogConfig
deriving DecidableEq, Repr

/-- `TailscaleBuilder::default()`. -/
def TailscaleBuilder.default : TailscaleBuilder :=
  ⟨false, none, none, none, .Default⟩

/-- Setter `auth_key` (records intent, infallible). -/
def TailscaleBuilder.auth_key' (b : TailscaleBuilder) (key : String) :
    TailscaleBuilder :=
  { b with auth_key := some key }

/-- Setter `ephemeral`. -/
def TailscaleBuilder.ephemeral' (b : TailscaleBuilder) (e : Bool) :
    TailscaleBuilder :=
  { b with ephemeral := e }

/-- Setter `hostname`. -/
def TailscaleBuilder.hostname' (b : TailscaleBuilder) (h : String) :
    TailscaleBuilder :=
  { b with hostname := some h }

/-- Setter `dir`. -/
def TailscaleBuilder.dir' (b : TailscaleBuilder) (d : String) :
    TailscaleBuilder :=
  { b with dir := some d }

/-- Setter `log_destination`. -/
def TailscaleBuilder.log_destination (b : TailscaleBuilder) (fd : Int) :
    TailscaleBuilder :=
  { b with log_config := .Fd fd }

/-- Setter `log_discard`. -/
def TailscaleBuilder.log_discard (b : TailscaleBuilder) : TailscaleBuilder :=
  { b with log_config := .Discard }

/-- One call into the native surface issued by `build()` (with the argument
the Rust code passes), plus `tailscale_close` for observing cleanup. -/
inductive NativeCall where
  | new
  | set_ephemeral (v : Int)
  | set_dir (dir : String)
  | set_hostname (h : String)
  | set_authkey (k : String)
  | set_logfd (fd : Int)
  | close (sd : Int)
deriving DecidableEq, Repr

/-- Return codes the native surface produces for each call `build()` may
issue.  `new_ret` doubles as the descriptor returned by `tailscale_new`
(the code treats `0` as the allocation-failure sentinel). -/
structure BuildEnv where
  new_ret : Int
  eph_ret : Int
  dir_ret : Int
  host_ret : Int
  key_ret : Int
  logfd_ret : Int
deriving DecidableEq, Repr

/-- The `Tailscale` struct: the native session descriptor and the optionally
owned log-sink descriptor (`_log_fd`). -/
structure Tailscale where
  sd : Int
  log_fd : Option Int
deriving DecidableEq, Repr

deriving instance DecidableEq for Except

/-- Everything observable about one `build()` invocation: its return value,
the builder state after the call (`build` takes `&mut self`; `mem::take`
resets `log_config`), and the sequence of native calls issued. -/
structure BuildResult where
  result : Except TailscaleError Tailscale
  builder : TailscaleBuilder
  calls : List NativeCall
deriving DecidableEq, Repr

/-- Log-configuration section of `build()` (the `match mem::take(...)` at the
end): `Default` issues no call, `Fd` passes the owned descriptor and moves it
into the `Tailscale` value, `Discard` passes the sentinel `-1`. -/
def buildLog (env : BuildEnv) (sd : Int) (b : TailscaleBuilder)
    (acc : List NativeCall) : BuildResult :=
  let b' := { b with log_config := .Default }
  match b.log_config with
  | .Default => ⟨.ok ⟨sd, none⟩, b', acc⟩
  | .Fd fd =>
    if env.logfd_ret ≠ 0 then
      ⟨.error .SetLogFd, b', acc ++ [.set_logfd fd]⟩
    else ⟨.ok ⟨sd, some fd⟩, b', acc ++ [.set_logfd fd]⟩
  | .Discard =>
    if env.logfd_ret ≠ 0 then
      ⟨.error .SetLogFd, b', acc ++ [.set_logfd (-1)]⟩
    else ⟨.ok ⟨sd, none⟩, b', acc ++ [.set_logfd (-1)]⟩

/-- Auth-key section of `build()`. -/
def buildKey (env : BuildEnv) (sd : Int) (b : TailscaleBuilder)
    (acc : List NativeCall) : BuildResult :=
  match b.auth_key with
  | none => buildLog env sd b acc
  | some k =>
    if hasNul k then ⟨.error .Utf8Error, b, acc⟩
    else if env.key_ret ≠ 0 then
      ⟨.error .SetAuthKey, b, acc ++ [.set_authkey k]⟩
    else buildLog env sd b (acc ++ [.set_authkey k])

/-- Hostname section of `build()`. -/
def buildHost (env : BuildEnv) (sd : Int) (b : TailscaleBuilder)
    (acc : List NativeCall) : BuildResult :=
  match b.hostname with
  | none => buildKey env sd b acc
  | some h =>
    if hasNul h then ⟨.error .Utf8Error, b, acc⟩
    else if env.host_ret ≠ 0 then
      ⟨.error .SetHostname, b, acc ++ [.set_hostname h]⟩
    else buildKey env sd b (acc ++ [.set_hostname h])

/-- State-directory section of `build()`. -/
def buildDir (env : BuildEnv) (sd : Int) (b : TailscaleBuilder)
    (acc : List NativeCall) : BuildResult :=
  match b.dir with
  | none => buildHost env sd b acc
  | some d =>
    if hasNul d then ⟨.error .Utf8Error, b, acc⟩
    else if env.dir_ret ≠ 0 then
      ⟨.error .SetDir, b, acc ++ [.set_dir d]⟩
    else buildHost env sd b (acc ++ [.set_dir d])

/-- Ephemeral section of `build()` (the native call is issued only when the
flag is set, with argument `true as _ = 1`). -/
def buildEph (env : BuildEnv) (sd : Int) (b : TailscaleBuilder)
    (acc : List NativeCall) : BuildResult :=
  if b.ephemeral then
    if env.eph_ret ≠ 0 then
      ⟨.error .SetEphemeral, b, acc ++ [.set_ephemeral 1]⟩
    else buildDir env sd b (acc ++ [.set_ephemeral 1])
  else buildDir env sd b acc

/-- `TailscaleBuilder::build`: allocate a session with `tailscale_new`
(`0` is the failure sentinel), then apply the configured options in the
fixed order ephemeral → directory → hostname → auth key → log destination,
aborting at the first failing step. -/
def TailscaleBuilder.build (env : BuildEnv) (b : TailscaleBuilder) :
    BuildResult :=
  if env.new_ret = 0 then ⟨.error .CreateTailscale, b, [.new]⟩
  else buildEph env env.new_ret b [.new]

/-- Result of one `tailscale_errmsg` call: its return code and the text it
wrote into the 2048-byte buffer. -/
structure ErrEnv where
  errmsg_ret : Int
  errmsg_text : String
deriving DecidableEq, Repr

/-- `Tailscale::get_error_message`: a positive return code from
`tailscale_errmsg` is itself an error; otherwise the buffer text is
returned. -/
def get_error_message (e : ErrEnv) : Except TailscaleError String :=
  if e.errmsg_ret > 0 then
    .error (.Tailscale ("Failed to retrieve error message (error code: " ++
      toString e.errmsg_ret ++ ")"))
  else .ok e.errmsg_text

/-- `Tailscale::up` as a function of the `tailscale_up` return code (the
`spawn_blocking` dispatch is modelled as succeeding): non-zero turns the
queried error text into `UpFailed`. -/
def Tailscale.up (ret : Int) (e : ErrEnv) : Except TailscaleError Unit :=
  if ret ≠ 0 then
    match get_error_message e with
    | .error er => .error er
    | .ok m => .error (.UpFailed m)
  else .ok ()

/-- The `NetworkType` enum. -/
inductive NetworkType where
  | Tcp
  | Udp
deriving DecidableEq, Repr

/-- `NetworkType::as_str`. -/
def NetworkType.as_str : NetworkType → String
  | .Tcp => "tcp"
  | .Udp => "udp"

/-- The `Listener` struct, reduced to its native listener descriptor (the
`_tailscale` back-reference is the session whose `ErrEnv` the operations
below consult). -/
structure Listener where
  ln : Int
deriving DecidableEq, Repr

/-- Result of one `tailscale_listen` call. -/
structure ListenEnv where
  ret : Int
  listener_out : Int
deriving DecidableEq, Repr

/-- `Tailscale::listener`: `CString::new` on the network and address strings
(failing on interior NUL), then the native listen call; non-zero wraps the
queried error text in `ListenFailed` with the network and address context. -/
def Tailscale.listener (network : NetworkType) (addr : String)
    (env : ListenEnv) (e : ErrEnv) : Except TailscaleError Listener :=
  if hasNul network.as_str then .error .Utf8Error
  else if hasNul addr then .error .Utf8Error
  else if env.ret ≠ 0 then
    match get_error_message e with
    | .error er => .error er
    | .ok m => .error (.ListenFailed network.as_str addr m)
  else .ok ⟨env.listener_out⟩

/-- Linux `O_NONBLOCK` status flag (octal `0o4000`). -/
def O_NONBLOCK : Nat := 2048

/-- The `Connection` struct: the optional owning `Listener` reference, the
wrapped descriptor, and the descriptor's status flags (recording the
`F_SETFL` performed by the constructors). -/
structure Connection where
  listener : Option Listener
  fd : Int
  statusFlags : Nat
deriving DecidableEq, Repr

/-- Results of the calls `Tailscale::connect` / `Listener::accept` make after
the native dial/accept: `fcntl(F_GETFL)` (current flags), `fcntl(F_SETFL)`
and `AsyncFd::new`, each failing with the external error's display text. -/
structure FdSetupEnv where
  getfl : Except String Nat
  setfl : Except String Unit
  asyncfd : Except String Unit
deriving DecidableEq, Repr

/-- Result of one `tailscale_dial` call. -/
structure DialEnv where
  ret : Int
  conn_fd : Int
  setup : FdSetupEnv
deriving DecidableEq, Repr

/-- `Tailscale::connect`: `CString::new` checks, the native dial (non-zero
wraps the queried error text in `DialFailed`), then `F_GETFL` /
`F_SETFL(flags | O_NONBLOCK)` / `AsyncFd::new`; the returned `Connection`
has no listener reference. -/
def Tailscale.connect (network : NetworkType) (addr : String) (env : DialEnv)
    (e : ErrEnv) : Except TailscaleError Connection :=
  if hasNul network.as_str then .error .Utf8Error
  else if hasNul addr then .error .Utf8Error
  else if env.ret ≠ 0 then
    match get_error_message e with
    | .error er => .error er
    | .ok m => .error (.DialFailed network.as_str addr m)
  else
    match env.setup.getfl with
    | .error m => .error (.Tailscale ("F_GETFL failed: " ++ m))
    | .ok flags =>
      match env.setup.setfl with
      | .error m => .error (.Tailscale ("F_SETFL failed: " ++ m))
      | .ok _ =>
        match env.setup.asyncfd with
        | .error m => .error (.Tailscale ("AsyncFd::new failed: " ++ m))
        | .ok _ => .ok ⟨none, env.conn_fd, flags ||| O_NONBLOCK⟩

/-- Result of one `tailscale_accept` call. -/
structure AcceptEnv where
  ret : Int
  out_fd : Int
  setup : FdSetupEnv
deriving DecidableEq, Repr

/-- `Listener::accept`: the native accept via the blocking bridge (non-zero
wraps the queried error text in `AcceptFailed`), then the same non-blocking
setup as `connect`; the returned `Connection` keeps the accepting listener
alive via `listener: Some(...)`. -/
def Listener.accept (l : Listener) (env : AcceptEnv) (e : ErrEnv) :
    Except TailscaleError Connection :=
  if env.ret ≠ 0 then
    match get_error_message e with
    | .error er => .error er
    | .ok m => .error (.AcceptFailed m)
  else
    match env.setup.getfl with
    | .error m => .error (.Tailscale ("F_GETFL failed: " ++ m))
    | .ok flags =>
      match env.setup.setfl with
      | .error m => .error (.Tailscale ("F_SETFL failed: " ++ m))
      | .ok _ =>
        match env.setup.asyncfd with
        | .error m => .error (.Tailscale ("AsyncFd::new failed: " ++ m))
        | .ok _ => .ok ⟨some l, env.out_fd, flags ||| O_NONBLOCK⟩

/-- Result of one `tailscale_getremoteaddr` call: its return code and the
text it wrote into the 128-byte buffer. -/
structure RemoteAddrEnv where
  ret : Int
  text : String
deriving DecidableEq, Repr

/-- `Connection::remote_addr`, paired with whether the native
`tailscale_getremoteaddr` query was issued at all: a `Connection` without a
listener returns `Ok(None)` before any native call; otherwise the call is
issued, non-zero wraps the queried error text in the `Tailscale` variant, and
the buffer text is parsed as an `IpAddr` (parse failure carries the offending
text in `AddrParseError`). -/
def Connection.remote_addr (c : Connection) (env : RemoteAddrEnv)
    (e : ErrEnv) : Except TailscaleError (Option RsIpAddr) × Bool :=
  match c.listener with
  | none => (.ok none, false)
  | some _ =>
    if env.ret ≠ 0 then
      match get_error_message e with
      | .error er => (.error er, true)
      | .ok m => (.error (.Tailscale m), true)
    else
      match parseIpAddr env.text with
      | some a => (.ok (some a), true)
      | none => (.error (.AddrParseError env.text), true)

/-- Result of one `tailscale_getips` call: its return code and the text it
wrote into the 256-byte buffer. -/
structure IpsEnv where
  ret : Int
  text : String
deriving DecidableEq, Repr

/-- `Tailscale::ips`: a non-zero native return wraps the queried error text
in the `Tailscale` variant; an empty buffer is `Ok(None)`; otherwise the text
must split at the first comma (`InvalidIpAdresses` carrying the text when it
cannot) into an IPv4 and an IPv6 literal, each parse failure carrying the
offending part in `AddrParseError`. -/
def Tailscale.ips (env : IpsEnv) (e : ErrEnv) :
    Except TailscaleError (Option IpPair) :=
  if env.ret ≠ 0 then
    match get_error_message e with
    | .error er => .error er
    | .ok m => .error (.Tailscale m)
  else
    let s := env.text
    if s = "" then .ok none
    else
      match splitOnce s ',' with
      | none => .error (.InvalidIpAdresses s)
      | some (v4s, v6s) =>
        match parseIpv4 v4s with
        | none => .error (.AddrParseError v4s)
        | some ip4 =>
          match parseIpv6 v6s with
          | none => .error (.AddrParseError v6s)
          | some ip6 => .ok (some ⟨ip4, ip6⟩)

/-- Linux `EWOULDBLOCK` / `EAGAIN` errno. -/
def EWOULDBLOCK : Int := 11

/-- One result of `AsyncFd::poll_read_ready` / `poll_write_ready`. -/
inductive Readiness where
  | ok
  | err (e : Int)
  | pending
deriving DecidableEq, Repr

/-- One result of the non-blocking `nix::unistd::read` / `write` attempt on
the descriptor: bytes transferred, or an errno (`nix` represents an errno as
the `Errno` enum, so `EWOULDBLOCK` is the value `11`). -/
inductive RwResult where
  | ok (n : Nat)
  | errno (e : Int)
deriving DecidableEq, Repr

/-- Outcome of one `poll_read` / `poll_write` invocation: `Poll::Ready(Ok)`
with the bytes transferred, `Poll::Ready(Err)` with the OS error code, or
`Poll::Pending`. -/
inductive PollOutcome where
  | ready_ok (n : Nat)
  | ready_err (e : Int)
  | pending
deriving DecidableEq, Repr

/-- `Connection::poll_read` (the `AsyncRead` impl), driven by a trace of loop
iterations: each entry is the readiness-poll result and, when ready, the OS
read's result.  `Ok(n)` fills and advances the buffer by `n` and returns
`Ready(Ok(()))`; `EWOULDBLOCK` clears the readiness guard and loops;
any other errno returns `Ready(Err)`.  `none` means the supplied trace ended
before the loop did. -/
def poll_read : List (Readiness × RwResult) → Option PollOutcome
  | [] => none
  | (r, rw) :: rest =>
    match r with
    | .pending => some .pending
    | .err e => some (.ready_err e)
    | .ok =>
      match rw with
      | .ok n => some (.ready_ok n)
      | .errno e =>
        if e = EWOULDBLOCK then poll_read rest
        else some (.ready_err e)

/-- `Connection::poll_write` (the `AsyncWrite` impl), same loop shape as
`poll_read` over write readiness and the OS write. -/
def poll_write : List (Readiness × RwResult) → Option PollOutcome
  | [] => none
  | (r, rw) :: rest =>
    match r with
    | .pending => some .pending
    | .err e => some (.ready_err e)
    | .ok =>
      match rw with
      | .ok n => some (.ready_ok n)
      | .errno e =>
        if e = EWOULDBLOCK then poll_write rest
        else some (.ready_err e)

/-- The synchronous `impl Read for Connection`: one direct
`nix::unistd::read` on the descriptor, an errno mapped through
`io::Error::from_raw_os_error` (modelled as the raw code); no readiness wait
and no retry — the function consumes exactly one OS-call result. -/
def Connection.read (_c : Connection) (r : RwResult) : Except Int Nat :=
  match r with
  | .ok n => .ok n
  | .errno e => .error e

/-- The synchronous `impl Write for Connection`: one direct
`nix::unistd::write`, same error mapping, no retry. -/
def Connection.write (_c : Connection) (r : RwResult) : Except Int Nat :=
  match r with
  | .ok n => .ok n
  | .errno e => .error e

/-- `Write::flush` for `Connection`: always `Ok(())`. -/
def Connection.flush (_c : Connection) : Except Int Unit :=
  .ok ()

/-- Native calls the ephemeral section issues. -/
def ephCalls (b : TailscaleBuilder) : List NativeCall :=
  if b.ephemeral then [.set_ephemeral 1] else []

/-- Native calls the directory section issues (when it succeeds). -/
def dirCalls (b : TailscaleBuilder) : List NativeCall :=
  match b.dir with
  | some d => [.set_dir d]
  | none => []

/-- Native calls the hostname section issues (when it succeeds). -/
def hostCalls (b : TailscaleBuilder) : List NativeCall :=
  match b.hostname with
  | some h => [.set_hostname h]
  | none => []

/-- Native calls the auth-key section issues (when it succeeds). -/
def keyCalls (b : TailscaleBuilder) : List NativeCall :=
  match b.auth_key with
  | some k => [.set_authkey k]
  | none => []

/-- All native calls issued before the log-configuration section. -/
def preLogCalls (b : TailscaleBuilder) : List NativeCall :=
  [NativeCall.new] ++ ephCalls b ++ dirCalls b ++ hostCalls b ++ keyCalls b

/-- The ephemeral section succeeds when its native call (if issued)
returns zero. -/
def ephOk (env : BuildEnv) (b : TailscaleBuilder) : Prop :=
  b.ephemeral = true → env.eph_ret = 0

/-- The directory section succeeds when its string is NUL-free and its
native call returns zero. -/
def dirOk (env : BuildEnv) (b : TailscaleBuilder) : Prop :=
  ∀ d, b.dir = some d → hasNul d = false ∧ env.dir_ret = 0

/-- The hostname section succeeds. -/
def hostOk (env : BuildEnv) (b : TailscaleBuilder) : Prop :=
  ∀ h, b.hostname = some h → hasNul h = false ∧ env.host_ret = 0

/-- The auth-key section succeeds. -/
def keyOk (env : BuildEnv) (b : TailscaleBuilder) : Prop :=
  ∀ k, b.auth_key = some k → hasNul k = false ∧ env.key_ret = 0

lemma buildEph_ok (env : BuildEnv) (sd : Int) (b : TailscaleBuilder)
    (acc : List NativeCall) (h : ephOk env b) :
    buildEph env sd b acc = buildDir env sd b (acc ++ ephCalls b) := by
  unfold buildEph ephCalls
  cases hb : b.ephemeral with
  | false => simp
  | true => simp [h hb]

lemma buildDir_ok (env : BuildEnv) (sd : Int) (b : TailscaleBuilder)
    (acc : List NativeCall) (h : dirOk env b) :
    buildDir env sd b acc = buildHost env sd b (acc ++ dirCalls b) := by
  unfold buildDir dirCalls
  cases hd : b.dir with
  | none => simp
  | some d =>
    obtain ⟨h1, h2⟩ := h d hd
    simp [h1, h2]

lemma buildHost_ok (env : BuildEnv) (sd : Int) (b : TailscaleBuilder)
    (acc : List NativeCall) (h : hostOk env b) :
    buildHost env sd b acc = buildKey env sd b (acc ++ hostCalls b) := by
  unfold buildHost hostCalls
  cases hh : b.hostname with
  | none => simp
  | some x =>
    obtain ⟨h1, h2⟩ := h x hh
    simp [h1, h2]

lemma buildKey_ok (env : BuildEnv) (sd : Int) (b : TailscaleBuilder)
    (acc : List NativeCall) (h : keyOk env b) :
    buildKey env sd b acc = buildLog env sd b (acc ++ keyCalls b) := by
  unfold buildKey keyCalls
  cases hk : b.auth_key with
  | none => simp
  | some x =>
    obtain ⟨h1, h2⟩ := h x hk
    simp [h1, h2]

lemma build_reaches_log (env : BuildEnv) (b : TailscaleBuilder)
    (hnew : env.new_ret ≠ 0) (he : ephOk env b) (hd : dirOk env b)
    (hh : hostOk env b) (hk : keyOk env b) :
    TailscaleBuilder.build env b =
      buildLog env env.new_ret b (preLogCalls b) := by
  unfold TailscaleBuilder.build preLogCalls
  rw [if_neg hnew, buildEph_ok env _ b _ he, buildDir_ok env _ b _ hd,
    buildHost_ok env _ b _ hh, buildKey_ok env _ b _ hk]

lemma set_logfd_not_mem_preLogCalls (b : TailscaleBuilder) (fd : Int) :
    NativeCall.set_logfd fd ∉ preLogCalls b := by
  rcases b with ⟨e, h, d, k, lc⟩
  simp only [preLogCalls, ephCalls, dirCalls, hostCalls, keyCalls]
  cases e <;> cases h <;> cases d <;> cases k <;> simp

lemma close_not_mem_buildLog (env : BuildEnv) (sd : Int) (b : TailscaleBuilder)
    (acc : List NativeCall) (x : Int) (h : NativeCall.close x ∉ acc) :
    NativeCall.close x ∉ (buildLog env sd b acc).calls := by
  cases hc : b.log_config with
  | Default => simpa [buildLog, hc] using h
  | Fd fd =>
    by_cases hr : env.logfd_ret = 0 <;> simp [buildLog, hc, hr, h]
  | Discard =>
    by_cases hr : env.logfd_ret = 0 <;> simp [buildLog, hc, hr, h]

lemma close_not_mem_buildKey (env : BuildEnv) (sd : Int) (b : TailscaleBuilder)
    (acc : List NativeCall) (x : Int) (h : NativeCall.close x ∉ acc) :
    NativeCall.close x ∉ (buildKey env sd b acc).calls := by
  unfold buildKey
  cases b.auth_key with
  | none => exact close_not_mem_buildLog env sd b acc x h
  | some k =>
    simp only
    split
    · simpa using h
    · split
      · simp [h]
      · exact close_not_mem_buildLog env sd b _ x (by simp [h])

lemma close_not_mem_buildHost (env : BuildEnv) (sd : Int)
    (b : TailscaleBuilder) (acc : List NativeCall) (x : Int)
    (h : NativeCall.close x ∉ acc) :
    NativeCall.close x ∉ (buildHost env sd b acc).calls := by
  unfold buildHost
  cases b.hostname with
  | none => exact close_not_mem_buildKey env sd b acc x h
  | some v =>
    simp only
    split
    · simpa using h
    · split
      · simp [h]
      · exact close_not_mem_buildKey env sd b _ x (by simp [h])

lemma close_not_mem_buildDir (env : BuildEnv) (sd : Int)
    (b : TailscaleBuilder) (acc : List NativeCall) (x : Int)
    (h : NativeCall.close x ∉ acc) :
    NativeCall.close x ∉ (buildDir env sd b acc).calls := by
  unfold buildDir
  cases b.dir with
  | none => exact close_not_mem_buildHost env sd b acc x h
  | some v =>
    simp only
    split
    · simpa using h
    · split
      · simp [h]
      · exact close_not_mem_buildHost env sd b _ x (by simp [h])

lemma close_not_mem_buildEph (env : BuildEnv) (sd : Int)
    (b : TailscaleBuilder) (acc : List NativeCall) (x : Int)
    (h : NativeCall.close x ∉ acc) :
    NativeCall.close x ∉ (buildEph env sd b acc).calls := by
  unfold buildEph
  split
  · split
    · simp [h]
    · exact close_not_mem_buildDir env sd b _ x (by simp [h])
  · exact close_not_mem_buildDir env sd b acc x h

lemma close_not_mem_build (env : BuildEnv) (b : TailscaleBuilder) (x : Int) :
    NativeCall.close x ∉ (TailscaleBuilder.build env b).calls := by
  unfold TailscaleBuilder.build
  split
  · simp
  · exact close_not_mem_buildEph env _ b _ x (by simp)

lemma mem_acc_buildLog (env : BuildEnv) (sd : Int) (b : TailscaleBuilder)
    (acc : List NativeCall) (x : NativeCall) (h : x ∈ acc) :
    x ∈ (buildLog env sd b acc).calls := by
  cases hc : b.log_config with
  | Default => simpa [buildLog, hc] using h
  | Fd fd =>
    by_cases hr : env.logfd_ret = 0 <;> simp [buildLog, hc, hr, h]
  | Discard =>
    by_cases hr : env.logfd_ret = 0 <;> simp [buildLog, hc, hr, h]

lemma mem_acc_buildKey (env : BuildEnv) (sd : Int) (b : TailscaleBuilder)
    (acc : List NativeCall) (x : NativeCall) (h : x ∈ acc) :
    x ∈ (buildKey env sd b acc).calls := by
  unfold buildKey
  cases b.auth_key with
  | none => exact mem_acc_buildLog env sd b acc x h
  | some k =>
    simp only
    split
    · simpa using h
    · split
      · simp [h]
      · exact mem_acc_buildLog env sd b _ x (by simp [h])

lemma mem_acc_buildHost (env : BuildEnv) (sd : Int) (b : TailscaleBuilder)
    (acc : List NativeCall) (x : NativeCall) (h : x ∈ acc) :
    x ∈ (buildHost env sd b acc).calls := by
  unfold buildHost
  cases b.hostname with
  | none => exact mem_acc_buildKey env sd b acc x h
  | some v =>
    simp only
    split
    · simpa using h
    · split
      · simp [h]
      · exact mem_acc_buildKey env sd b _ x (by simp [h])

lemma mem_acc_buildDir (env : BuildEnv) (sd : Int) (b : TailscaleBuilder)
    (acc : List NativeCall) (x : NativeCall) (h : x ∈ acc) :
    x ∈ (buildDir env sd b acc).calls := by
  unfold buildDir
  cases b.dir with
  | none => exact mem_acc_buildHost env sd b acc x h
  | some v =>
    simp only
    split
    · simpa using h
    · split
      · simp [h]
      · exact mem_acc_buildHost env sd b _ x (by simp [h])

lemma mem_acc_buildEph (env : BuildEnv) (sd : Int) (b : TailscaleBuilder)
    (acc : List NativeCall) (x : NativeCall) (h : x ∈ acc) :
    x ∈ (buildEph env sd b acc).calls := by
  unfold buildEph
  split
  · split
    · simp [h]
    · exact mem_acc_buildDir env sd b _ x (by simp [h])
  · exact mem_acc_buildDir env sd b acc x h

lemma new_mem_build (env : BuildEnv) (b : TailscaleBuilder) :
    NativeCall.new ∈ (TailscaleBuilder.build env b).calls := by
  unfold TailscaleBuilder.build
  split
  · simp
  · exact mem_acc_buildEph env _ b _ _ (by simp)

/-- The log sink the produced `Tailscale` value owns, as a function of the
builder's log configuration. -/
def logOf (b : TailscaleBuilder) : Option Int :=
  match b.log_config with
  | .Fd fd => some fd
  | _ => none

lemma buildLog_ok_shape (env : BuildEnv) (sd : Int) (b : TailscaleBuilder)
    (acc : List NativeCall) (ts : Tailscale)
    (h : (buildLog env sd b acc).result = .ok ts) : ts = ⟨sd, logOf b⟩ := by
  cases hc : b.log_config with
  | Default =>
    simp [buildLog, hc] at h
    simp [logOf, hc, ← h]
  | Fd fd =>
    by_cases hr : env.logfd_ret = 0
    · simp [buildLog, hc, hr] at h
      simp [logOf, hc, ← h]
    · simp [buildLog, hc, hr] at h
  | Discard =>
    by_cases hr : env.logfd_ret = 0
    · simp [buildLog, hc, hr] at h
      simp [logOf, hc, ← h]
    · simp [buildLog, hc, hr] at h

lemma buildKey_ok_shape (env : BuildEnv) (sd : Int) (b : TailscaleBuilder)
    (acc : List NativeCall) (ts : Tailscale)
    (h : (buildKey env sd b acc).result = .ok ts) : ts = ⟨sd, logOf b⟩ := by
  unfold buildKey at h
  cases hk : b.auth_key with
  | none =>
    rw [hk] at h
    exact buildLog_ok_shape env sd b acc ts h
  | some k =>
    rw [hk] at h
    simp only at h
    split at h
    · exact absurd h (by simp)
    · split at h
      · exact absurd h (by simp)
      · exact buildLog_ok_shape env sd b _ ts h

lemma buildHost_ok_shape (env : BuildEnv) (sd : Int) (b : TailscaleBuilder)
    (acc : List NativeCall) (ts : Tailscale)
    (h : (buildHost env sd b acc).result = .ok ts) : ts = ⟨sd, logOf b⟩ := by
  unfold buildHost at h
  cases hh : b.hostname with
  | none =>
    rw [hh] at h
    exact buildKey_ok_shape env sd b acc ts h
  | some v =>
    rw [hh] at h
    simp only at h
    split at h
    · exact absurd h (by simp)
    · split at h
      · exact absurd h (by simp)
      · exact buildKey_ok_shape env sd b _ ts h

lemma buildDir_ok_shape (env : BuildEnv) (sd : Int) (b : TailscaleBuilder)
    (acc : List NativeCall) (ts : Tailscale)
    (h : (buildDir env sd b acc).result = .ok ts) : ts = ⟨sd, logOf b⟩ := by
  unfold buildDir at h
  cases hd : b.dir with
  | none =>
    rw [hd] at h
    exact buildHost_ok_shape env sd b acc ts h
  | some v =>
    rw [hd] at h
    simp only at h
    split at h
    · exact absurd h (by simp)
    · split at h
      · exact absurd h (by simp)
      · exact buildHost_ok_shape env sd b _ ts h

lemma buildEph_ok_shape (env : BuildEnv) (sd : Int) (b : TailscaleBuilder)
    (acc : List NativeCall) (ts : Tailscale)
    (h : (buildEph env sd b acc).result = .ok ts) : ts = ⟨sd, logOf b⟩ := by
  unfold buildEph at h
  split at h
  · split at h
    · exact absurd h (by simp)
    · exact buildDir_ok_shape env sd b _ ts h
  · exact buildDir_ok_shape env sd b acc ts h

lemma build_ok_shape (env : BuildEnv) (b : TailscaleBuilder) (ts : Tailscale)
    (h : (TailscaleBuilder.build env b).result = .ok ts) :
    ts = ⟨env.new_ret, logOf b⟩ := by
  unfold TailscaleBuilder.build at h
  split at h
  · exact absurd h (by simp)
  · exact buildEph_ok_shape env _ b _ ts h

lemma lor_land_self (a b : Nat) : (a ||| b) &&& b = b := by
  apply Nat.eq_of_testBit_eq
  intro i
  simp only [Nat.testBit_land, Nat.testBit_lor]
  cases b.testBit i <;> simp

/-- C1: for every outcome of the native IP query, `Tailscale::ips` maps the
empty buffer text to `Ok(None)`, the text `"100.64.0.1,fd7a:115c:a1e0::1"` to
the pair (IPv4 100.64.0.1, IPv6 fd7a:115c:a1e0::1), and the comma-free text
`"garbage"` to `InvalidIpAdresses("garbage")`. -/
theorem ips_text_behavior_c1 (e : ErrEnv) :
    Tailscale.ips ⟨0, ""⟩ e = .ok none ∧
    Tailscale.ips ⟨0, "100.64.0.1,fd7a:115c:a1e0::1"⟩ e =
      .ok (some ⟨⟨100, 64, 0, 1⟩, [64890, 4444, 41440, 0, 0, 0, 0, 1]⟩) ∧
    Tailscale.ips ⟨0, "garbage"⟩ e =
      .error (.InvalidIpAdresses "garbage") := by
  refine ⟨rfl, ?_, ?_⟩ <;> rfl

/-- C4: a `poll_read` iteration whose OS read returns 0 bytes completes
immediately with `Ready(Ok)` and 0 bytes transferred, regardless of any
further readiness events — it is not treated as would-block and not
retried. -/
theorem poll_read_zero_immediate_c4 (rest : List (Readiness × RwResult)) :
    poll_read ((Readiness.ok, RwResult.ok 0) :: rest) =
      some (PollOutcome.ready_ok 0) :=
  rfl

lemma poll_read_no_wb (tr : List (Readiness × RwResult)) :
    ∀ e : Int, (∀ rw, (Readiness.err EWOULDBLOCK, rw) ∉ tr) →
      poll_read tr = some (PollOutcome.ready_err e) → e ≠ EWOULDBLOCK := by
  induction tr with
  | nil =>
    intro e _ hp
    simp [poll_read] at hp
  | cons p rest ih =>
    intro e h hp
    obtain ⟨r, rw⟩ := p
    cases r with
    | pending => simp [poll_read] at hp
    | err e' =>
      simp [poll_read] at hp
      intro he
      exact h rw (by simp [hp, he])
    | ok =>
      cases rw with
      | ok n => simp [poll_read] at hp
      | errno e' =>
        simp only [poll_read] at hp
        by_cases hb : e' = EWOULDBLOCK
        · rw [if_pos hb] at hp
          exact ih e (fun w hw => h w (List.mem_cons_of_mem _ hw)) hp
        · rw [if_neg hb] at hp
          simp at hp
          intro he
          exact hb (by rw [hp, he])

lemma poll_write_no_wb (tr : List (Readiness × RwResult)) :
    ∀ e : Int, (∀ rw, (Readiness.err EWOULDBLOCK, rw) ∉ tr) →
      poll_write tr = some (PollOutcome.ready_err e) → e ≠ EWOULDBLOCK := by
  induction tr with
  | nil =>
    intro e _ hp
    simp [poll_write] at hp
  | cons p rest ih =>
    intro e h hp
    obtain ⟨r, rw⟩ := p
    cases r with
    | pending => simp [poll_write] at hp
    | err e' =>
      simp [poll_write] at hp
      intro he
      exact h rw (by simp [hp, he])
    | ok =>
      cases rw with
      | ok n => simp [poll_write] at hp
      | errno e' =>
        simp only [poll_write] at hp
        by_cases hb : e' = EWOULDBLOCK
        · rw [if_pos hb] at hp
          exact ih e (fun w hw => h w (List.mem_cons_of_mem _ hw)) hp
        · rw [if_neg hb] at hp
          simp at hp
          intro he
          exact hb (by rw [hp, he])

/-- C5: a would-block result from the OS read/write after a readiness
notification makes the loop clear the guard and re-enter the wait (the loop's
value is that of the remaining trace), and a would-block errno is never the
surfaced error of `poll_read`/`poll_write` — provided, for the error case,
that the readiness bridge itself never reports the would-block code. -/
theorem poll_would_block_retry_c5 :
    (∀ rest, poll_read ((Readiness.ok, RwResult.errno EWOULDBLOCK) :: rest) =
      poll_read rest) ∧
    (∀ rest, poll_write ((Readiness.ok, RwResult.errno EWOULDBLOCK) :: rest) =
      poll_write rest) ∧
    (∀ tr (e : Int), (∀ rw, (Readiness.err EWOULDBLOCK, rw) ∉ tr) →
      poll_read tr = some (PollOutcome.ready_err e) → e ≠ EWOULDBLOCK) ∧
    (∀ tr (e : Int), (∀ rw, (Readiness.err EWOULDBLOCK, rw) ∉ tr) →
      poll_write tr = some (PollOutcome.ready_err e) → e ≠ EWOULDBLOCK) := by
  refine ⟨?_, ?_, fun tr e => poll_read_no_wb tr e,
    fun tr e => poll_write_no_wb tr e⟩
  · intro rest
    simp [poll_read]
  · intro rest
    simp [poll_write]

/-- Witness for C5 at a concrete trace: a hard error (errno 9) surfaced by
`poll_read` after one would-block retry is not the would-block code. -/
theorem poll_would_block_retry_c5_witness : (9 : Int) ≠ EWOULDBLOCK :=
  poll_would_block_retry_c5.2.2.1
    [(Readiness.ok, RwResult.errno EWOULDBLOCK), (Readiness.ok, RwResult.errno 9)]
    9 (fun rw h => by simp at h) (by decide)

/-- C6: `remote_addr` on a dialed `Connection` (no listener reference)
returns `Ok(None)` and issues no native query; on an accepted `Connection`
(listener present) the native query is always issued. -/
theorem remote_addr_dialed_none_c6 (env : RemoteAddrEnv) (e : ErrEnv)
    (fd : Int) (fl : Nat) :
    Connection.remote_addr ⟨none, fd, fl⟩ env e = (.ok none, false) ∧
    (∀ l : Listener, (Connection.remote_addr ⟨some l, fd, fl⟩ env e).2 = true) := by
  constructor
  · rfl
  · intro l
    simp only [Connection.remote_addr]
    split
    · split <;> rfl
    · split <;> rfl

/-- C2: `build()` fails with `CreateTailscale` when `tailscale_new` yields
the sentinel 0; otherwise it applies the options in the fixed order
ephemeral → directory → hostname → auth key → log destination, and the first
native call returning non-zero aborts the build with that option's failure,
with exactly the earlier calls (and no later one) issued. -/
theorem build_order_first_failure_c2 (env : BuildEnv) (b : TailscaleBuilder) :
    (env.new_ret = 0 →
      TailscaleBuilder.build env b = ⟨.error .CreateTailscale, b, [.new]⟩) ∧
    (env.new_ret ≠ 0 → b.ephemeral = true → env.eph_ret ≠ 0 →
      TailscaleBuilder.build env b =
        ⟨.error .SetEphemeral, b, [.new, .set_ephemeral 1]⟩) ∧
    (∀ d, env.new_ret ≠ 0 → ephOk env b → b.dir = some d →
      hasNul d = false → env.dir_ret ≠ 0 →
      TailscaleBuilder.build env b =
        ⟨.error .SetDir, b, [NativeCall.new] ++ ephCalls b ++ [.set_dir d]⟩) ∧
    (∀ hs, env.new_ret ≠ 0 → ephOk env b → dirOk env b → b.hostname = some hs →
      hasNul hs = false → env.host_ret ≠ 0 →
      TailscaleBuilder.build env b =
        ⟨.error .SetHostname, b,
          [NativeCall.new] ++ ephCalls b ++ dirCalls b ++ [.set_hostname hs]⟩) ∧
    (∀ k, env.new_ret ≠ 0 → ephOk env b → dirOk env b → hostOk env b →
      b.auth_key = some k → hasNul k = false → env.key_ret ≠ 0 →
      TailscaleBuilder.build env b =
        ⟨.error .SetAuthKey, b,
          [NativeCall.new] ++ ephCalls b ++ dirCalls b ++ hostCalls b ++
            [.set_authkey k]⟩) ∧
    (∀ fd, env.new_ret ≠ 0 → ephOk env b → dirOk env b → hostOk env b →
      keyOk env b → b.log_config = .Fd fd → env.logfd_ret ≠ 0 →
      TailscaleBuilder.build env b =
        ⟨.error .SetLogFd, { b with log_config := .Default },
          preLogCalls b ++ [.set_logfd fd]⟩) ∧
    (env.new_ret ≠ 0 → ephOk env b → dirOk env b → hostOk env b →
      keyOk env b → b.log_config = .Discard → env.logfd_ret ≠ 0 →
      TailscaleBuilder.build env b =
        ⟨.error .SetLogFd, { b with log_config := .Default },
          preLogCalls b ++ [.set_logfd (-1)]⟩) := by
  refine ⟨?_, ?_, ?_, ?_, ?_, ?_, ?_⟩
  · intro h
    simp [TailscaleBuilder.build, h]
  · intro hn he hr
    simp [TailscaleBuilder.build, hn, buildEph, he, hr]
  · intro d hn he hd hnul hr
    unfold TailscaleBuilder.build
    rw [if_neg hn, buildEph_ok env _ b _ he]
    simp [buildDir, hd, hnul, hr]
  · intro hs hn he hd hh hnul hr
    unfold TailscaleBuilder.build
    rw [if_neg hn, buildEph_ok env _ b _ he, buildDir_ok env _ b _ hd]
    simp [buildHost, hh, hnul, hr]
  · intro k hn he hd hh hk hnul hr
    unfold TailscaleBuilder.build
    rw [if_neg hn, buildEph_ok env _ b _ he, buildDir_ok env _ b _ hd,
      buildHost_ok env _ b _ hh]
    simp [buildKey, hk, hnul, hr]
  · intro fd hn he hd hh hk hc hr
    rw [build_reaches_log env b hn he hd hh hk]
    simp [buildLog, hc, hr]
  · intro hn he hd hh hk hc hr
    rw [build_reaches_log env b hn he hd hh hk]
    simp [buildLog, hc, hr]

/-- Witness for C2 at a concrete builder: with `tailscale_new` returning 1
and `tailscale_set_ephemeral` returning 5, an ephemeral builder aborts with
`SetEphemeral` after exactly the two calls `new` and `set_ephemeral 1`. -/
theorem build_order_first_failure_c2_witness :
    TailscaleBuilder.build ⟨1, 5, 0, 0, 0, 0⟩ ⟨true, none, none, none, .Default⟩ =
      ⟨.error .SetEphemeral, ⟨true, none, none, none, .Default⟩,
        [.new, .set_ephemeral 1]⟩ :=
  (build_order_first_failure_c2 ⟨1, 5, 0, 0, 0, 0⟩
    ⟨true, none, none, none, .Default⟩).2.1 (by decide) rfl (by decide)

/-- C7: when every earlier configuration step succeeds, the log-destination
handling of `build()` is: `Default` issues no `set_logfd` call and the
produced session owns no log sink; `Fd fd` passes `fd` to `set_logfd` and, on
success, the session owns the sink; `Discard` passes the sentinel `-1` and
the session owns no sink. -/
theorem build_log_modes_c7 (env : BuildEnv) (b : TailscaleBuilder)
    (hn : env.new_ret ≠ 0) (he : ephOk env b) (hd : dirOk env b)
    (hh : hostOk env b) (hk : keyOk env b) :
    (b.log_config = .Default →
      (TailscaleBuilder.build env b).calls = preLogCalls b ∧
      (∀ fd, NativeCall.set_logfd fd ∉ (TailscaleBuilder.build env b).calls) ∧
      (TailscaleBuilder.build env b).result = .ok ⟨env.new_ret, none⟩) ∧
    (∀ fd, b.log_config = .Fd fd →
      (TailscaleBuilder.build env b).calls = preLogCalls b ++ [.set_logfd fd] ∧
      (env.logfd_ret = 0 →
        (TailscaleBuilder.build env b).result = .ok ⟨env.new_ret, some fd⟩)) ∧
    (b.log_config = .Discard →
      (TailscaleBuilder.build env b).calls =
        preLogCalls b ++ [.set_logfd (-1)] ∧
      (env.logfd_ret = 0 →
        (TailscaleBuilder.build env b).result = .ok ⟨env.new_ret, none⟩)) := by
  rw [build_reaches_log env b hn he hd hh hk]
  refine ⟨?_, ?_, ?_⟩
  · intro hc
    refine ⟨by simp [buildLog, hc], ?_, by simp [buildLog, hc]⟩
    intro fd
    simp only [buildLog, hc]
    exact set_logfd_not_mem_preLogCalls b fd
  · intro fd hc
    constructor
    · by_cases hr : env.logfd_ret = 0 <;> simp [buildLog, hc, hr]
    · intro hr
      simp [buildLog, hc, hr]
  · intro hc
    constructor
    · by_cases hr : env.logfd_ret = 0 <;> simp [buildLog, hc, hr]
    · intro hr
      simp [buildLog, hc, hr]

/-- Witness for C7 at a concrete builder in sink mode: the produced session
owns the supplied descriptor 7. -/
theorem build_log_modes_c7_witness :
    (TailscaleBuilder.build ⟨1, 0, 0, 0, 0, 0⟩
      ⟨false, none, none, none, .Fd 7⟩).result = .ok ⟨1, some 7⟩ :=
  ((build_log_modes_c7 ⟨1, 0, 0, 0, 0, 0⟩ ⟨false, none, none, none, .Fd 7⟩
    (by decide) (fun h => rfl) (fun d h => Option.noConfusion h)
    (fun x h => Option.noConfusion h) (fun k h => Option.noConfusion h)).2.1
    7 rfl).2 rfl

lemma hasNul_as_str (net : NetworkType) : hasNul net.as_str = false := by
  cases net <;> decide

/-- C3: whenever the underlying native call reports non-zero and the error
query yields text `m`, each public fallible operation returns its typed
failure carrying `m` — `UpFailed`, `ListenFailed`, `DialFailed`,
`AcceptFailed`, or the `Tailscale` native-error wrapper (for `remote_addr`
on an accepted connection, and for `ips`); being total Lean functions, none
of these paths panics. -/
theorem native_failure_error_text_c3 (e : ErrEnv) (m : String)
    (hm : get_error_message e = .ok m) :
    (∀ ret : Int, ret ≠ 0 → Tailscale.up ret e = .error (.UpFailed m)) ∧
    (∀ (net : NetworkType) (addr : String) (env : ListenEnv),
      hasNul addr = false → env.ret ≠ 0 →
      Tailscale.listener net addr env e =
        .error (.ListenFailed net.as_str addr m)) ∧
    (∀ (net : NetworkType) (addr : String) (env : DialEnv),
      hasNul addr = false → env.ret ≠ 0 →
      Tailscale.connect net addr env e =
        .error (.DialFailed net.as_str addr m)) ∧
    (∀ (l : Listener) (env : AcceptEnv), env.ret ≠ 0 →
      Listener.accept l env e = .error (.AcceptFailed m)) ∧
    (∀ (c : Connection) (l : Listener) (env : RemoteAddrEnv),
      c.listener = some l → env.ret ≠ 0 →
      Connection.remote_addr c env e = (.error (.Tailscale m), true)) ∧
    (∀ env : IpsEnv, env.ret ≠ 0 → Tailscale.ips env e = .error (.Tailscale m)) := by
  refine ⟨?_, ?_, ?_, ?_, ?_, ?_⟩
  · intro ret hr
    simp [Tailscale.up, hr, hm]
  · intro net addr env ha hr
    simp [Tailscale.listener, hasNul_as_str, ha, hr, hm]
  · intro net addr env ha hr
    simp [Tailscale.connect, hasNul_as_str, ha, hr, hm]
  · intro l env hr
    simp [Listener.accept, hr, hm]
  · intro c l env hl hr
    simp [Connection.remote_addr, hl, hr, hm]
  · intro env hr
    simp [Tailscale.ips, hr, hm]

/-- Witness for C3: a failed `tailscale_up` surfaces the queried error
text. -/
theorem native_failure_error_text_c3_witness :
    Tailscale.up (-1) ⟨0, "boom"⟩ = .error (.UpFailed "boom") :=
  (native_failure_error_text_c3 ⟨0, "boom"⟩ "boom" rfl).1 (-1) (by decide)

/-- C8, counterexample: `build()` does not consume or lock the builder — it
borrows it mutably, so the builder survives `build()` and a setter applied to
it afterwards both changes it and changes what a subsequent `build()` does. -/
theorem builder_not_consumed_counterexample_c8 :
    TailscaleBuilder.hostname'
        (TailscaleBuilder.build ⟨1, 0, 0, 0, 0, 0⟩
          TailscaleBuilder.default).builder "post" ≠
      (TailscaleBuilder.build ⟨1, 0, 0, 0, 0, 0⟩
        TailscaleBuilder.default).builder ∧
    (TailscaleBuilder.build ⟨1, 0, 0, 0, 0, 0⟩
        (TailscaleBuilder.hostname'
          (TailscaleBuilder.build ⟨1, 0, 0, 0, 0, 0⟩
            TailscaleBuilder.default).builder "post")).calls ≠
      (TailscaleBuilder.build ⟨1, 0, 0, 0, 0, 0⟩
        TailscaleBuilder.default).calls := by
  decide

/-- C8, amended: `build()` takes the builder by mutable reference rather than
consuming it, so setters can still be applied to the builder afterwards; but
the produced session is a copy of the build-time configuration — its
descriptor is the allocation result and its owned log sink is determined by
the log configuration at build time, so mutating the builder after `build()`
has no effect on the already-produced session. -/
theorem builder_write_once_amended_c8 (env : BuildEnv) (b : TailscaleBuilder) :
    (∀ ts, (TailscaleBuilder.build env b).result = .ok ts →
      ts = ⟨env.new_ret, logOf b⟩) ∧
    (∀ h, ((TailscaleBuilder.build env b).builder.hostname' h).hostname =
      some h) ∧
    (∀ k, ((TailscaleBuilder.build env b).builder.auth_key' k).auth_key =
      some k) := by
  refine ⟨?_, ?_, ?_⟩
  · intro ts h
    exact build_ok_shape env b ts h
  · intro h
    rfl
  · intro k
    rfl

/-- Witness for the amended C8: a successful build with a log sink produces
exactly the session copying descriptor 1 and sink 7. -/
theorem builder_write_once_amended_c8_witness :
    (⟨1, some 7⟩ : Tailscale) =
      ⟨1, logOf ⟨false, none, none, none, .Fd 7⟩⟩ :=
  (builder_write_once_amended_c8 ⟨1, 0, 0, 0, 0, 0⟩
    ⟨false, none, none, none, .Fd 7⟩).1 ⟨1, some 7⟩ (by decide)

lemma connect_ok_nonblocking (net : NetworkType) (addr : String)
    (env : DialEnv) (e : ErrEnv) (conn : Connection)
    (h : Tailscale.connect net addr env e = .ok conn) :
    conn.statusFlags &&& O_NONBLOCK = O_NONBLOCK ∧ conn.listener = none := by
  unfold Tailscale.connect at h
  split at h
  · exact Except.noConfusion h
  split at h
  · exact Except.noConfusion h
  split at h
  · split at h <;> exact Except.noConfusion h
  split at h
  · exact Except.noConfusion h
  split at h
  · exact Except.noConfusion h
  split at h
  · exact Except.noConfusion h
  cases h
  exact ⟨lor_land_self _ _, rfl⟩

lemma accept_ok_nonblocking (l : Listener) (env : AcceptEnv) (e : ErrEnv)
    (conn : Connection) (h : Listener.accept l env e = .ok conn) :
    conn.statusFlags &&& O_NONBLOCK = O_NONBLOCK ∧ conn.listener = some l := by
  unfold Listener.accept at h
  split at h
  · split at h <;> exact Except.noConfusion h
  split at h
  · exact Except.noConfusion h
  split at h
  · exact Except.noConfusion h
  split at h
  · exact Except.noConfusion h
  cases h
  exact ⟨lor_land_self _ _, rfl⟩

/-- C9: the synchronous `Read`/`Write` impls perform a single direct OS call
with no readiness wait and no retry — a success returns the byte count, any
errno (in particular would-block) is surfaced directly as the OS error — and
every constructor (`connect`, `accept`) has already set `O_NONBLOCK` on the
descriptor of the `Connection` it returns. -/
theorem sync_read_write_direct_c9 :
    (∀ (c : Connection) (n : Nat), Connection.read c (RwResult.ok n) = .ok n ∧
      Connection.write c (RwResult.ok n) = .ok n) ∧
    (∀ (c : Connection) (er : Int),
      Connection.read c (RwResult.errno er) = .error er ∧
      Connection.write c (RwResult.errno er) = .error er) ∧
    (∀ c, Connection.read c (RwResult.errno EWOULDBLOCK) =
      .error EWOULDBLOCK) ∧
    (∀ net addr env e conn, Tailscale.connect net addr env e = .ok conn →
      conn.statusFlags &&& O_NONBLOCK = O_NONBLOCK ∧ conn.listener = none) ∧
    (∀ l env e conn, Listener.accept l env e = .ok conn →
      conn.statusFlags &&& O_NONBLOCK = O_NONBLOCK ∧
        conn.listener = some l) := by
  refine ⟨fun c n => ⟨rfl, rfl⟩, fun c er => ⟨rfl, rfl⟩, fun c => rfl,
    ?_, ?_⟩
  · intro net addr env e conn h
    exact connect_ok_nonblocking net addr env e conn h
  · intro l env e conn h
    exact accept_ok_nonblocking l env e conn h

/-- Witness for C9: a concrete successful dial yields a connection whose
status flags contain `O_NONBLOCK` and which holds no listener reference. -/
theorem sync_read_write_direct_c9_witness :
    (⟨none, 7, 2048⟩ : Connection).statusFlags &&& O_NONBLOCK = O_NONBLOCK ∧
    (⟨none, 7, 2048⟩ : Connection).listener = none :=
  sync_read_write_direct_c9.2.2.2.1 .Tcp "peer:80"
    ⟨0, 7, ⟨.ok 0, .ok (), .ok ()⟩⟩ ⟨0, ""⟩ ⟨none, 7, 2048⟩ (by decide)

/-- C10: when `build()` fails after the native session allocation succeeded,
it returns the error without issuing `tailscale_close` on the new session —
no call in the emitted trace is a close (and the allocation call is in the
trace). -/
theorem build_error_no_close_c10 (env : BuildEnv) (b : TailscaleBuilder)
    (er : TailscaleError) (hn : env.new_ret ≠ 0)
    (herr : (TailscaleBuilder.build env b).result = .error er) :
    (∀ sd, NativeCall.close sd ∉ (TailscaleBuilder.build env b).calls) ∧
    NativeCall.new ∈ (TailscaleBuilder.build env b).calls :=
  ⟨fun sd => close_not_mem_build env b sd, new_mem_build env b⟩

/-- Witness for C10: a build failing at the ephemeral step issued no close
call on the freshly allocated session. -/
theorem build_error_no_close_c10_witness :
    NativeCall.close 1 ∉
      (TailscaleBuilder.build ⟨1, 5, 0, 0, 0, 0⟩
        ⟨true, none, none, none, .Default⟩).calls ∧
    NativeCall.new ∈
      (TailscaleBuilder.build ⟨1, 5, 0, 0, 0, 0⟩
        ⟨true, none, none, none, .Default⟩).calls :=
  ⟨(build_error_no_close_c10 ⟨1, 5, 0, 0, 0, 0⟩
      ⟨true, none, none, none, .Default⟩ .SetEphemeral (by decide)
      (by decide)).1 1,
    (build_error_no_close_c10 ⟨1, 5, 0, 0, 0, 0⟩
      ⟨true, none, none, none, .Default⟩ .SetEphemeral (by decide)
      (by decide)).2⟩
